import Mathlib

/-!
Verification of the GRC Compliance Analysis Engine (python sources:
`risk_prediction.py`, `gap_analysis.py`, `document_analyzer.py`,
`recommendation_engine.py`) against its natural-language specification.

The python code is shallowly embedded: dictionaries with optional keys become
structures with `Option` fields, python floats become exact rationals (`ℚ`),
`round(x, n)` becomes round-half-to-even on `x * 10^n`, `int(x)` becomes
truncation toward zero, and exceptions (`ValueError`, `KeyError`) become
`Except PyError`.
-/

/-- Python exceptions raised by the engine: `ValueError` (the
`UnknownFramework` failure) and `KeyError` (subscripting a dict that lacks
the key). -/
inductive PyError where
  | valueError (msg : String)
  | keyError (key : String)
deriving Repr, DecidableEq

/-- Python `round` to an integer: round-half-to-even (banker's rounding), as
python's builtin `round` does. -/
def pyRoundHalfEven (x : ℚ) : ℤ :=
  let f := ⌊x⌋
  let frac := x - (f : ℚ)
  if frac < 1/2 then f
  else if 1/2 < frac then f + 1
  else if f % 2 = 0 then f else f + 1

/-- Python `round(x, 2)`. -/
def round2 (x : ℚ) : ℚ := (pyRoundHalfEven (x * 100) : ℚ) / 100

/-- Python `round(x, 1)`. -/
def round1 (x : ℚ) : ℚ := (pyRoundHalfEven (x * 10) : ℚ) / 10

/-- Python `int(x)` on a float: truncation toward zero. -/
def pyInt (x : ℚ) : ℤ := if 0 ≤ x then ⌊x⌋ else ⌈x⌉

/-! ## Risk Prediction Service (`risk_prediction.py`) -/

/-- The argument dict of `calculate_risk_score`; a `none` field models a dict
in which that key is absent (the code reads every field with `.get` and a
default, so absent keys never fail here). -/
structure RiskData where
  likelihood : Option ℚ := none
  impact : Option ℚ := none
  control_effectiveness : Option ℚ := none
  threat_level : Option String := none
deriving Repr, DecidableEq

structure RiskScoreResult where
  risk_score : ℚ
  classification : String
  priority : ℕ
  likelihood : ℚ
  impact : ℚ
  confidence : ℚ
deriving Repr, DecidableEq

/-- `threat_multipliers.get(threat_level, 1.0)`:
`{'low': 0.8, 'medium': 1.0, 'high': 1.3, 'critical': 1.5}`. -/
def threatMultiplier (threat_level : String) : ℚ :=
  if threat_level = "low" then 8/10
  else if threat_level = "medium" then 1
  else if threat_level = "high" then 13/10
  else if threat_level = "critical" then 15/10
  else 1

/-- The `if final_score >= 15: ... elif ... else ...` classification chain,
returning `(classification, priority)`. -/
def classify_risk (final_score : ℚ) : String × ℕ :=
  if 15 ≤ final_score then ("Critical", 1)
  else if 10 ≤ final_score then ("High", 2)
  else if 5 ≤ final_score then ("Medium", 3)
  else ("Low", 4)

/-- `RiskPredictionService.calculate_risk_score`.  `0.4` is written `4/10`. -/
def calculate_risk_score (risk_data : RiskData) : RiskScoreResult :=
  let likelihood := risk_data.likelihood.getD 3
  let impact := risk_data.impact.getD 3
  let control_effectiveness := risk_data.control_effectiveness.getD 70 / 100
  let threat_level := risk_data.threat_level.getD "medium"
  let adjusted_likelihood := likelihood * (1 - control_effectiveness * (4/10))
  let threat_multiplier := threatMultiplier threat_level
  let base_score := adjusted_likelihood * impact
  let final_score := base_score * threat_multiplier
  let cp := classify_risk final_score
  { risk_score := round2 final_score
    classification := cp.1
    priority := cp.2
    likelihood := round2 adjusted_likelihood
    impact := impact
    confidence := round1 (control_effectiveness * 100) }

/-- Convenience constructor: the `risk_data` dict with all four keys
present. -/
def mkRiskData (l i ce : ℚ) (tl : String) : RiskData :=
  { likelihood := some l, impact := some i,
    control_effectiveness := some ce, threat_level := some tl }

/-- One entry of the static `emerging_risks_db` catalog. -/
structure EmergingRisk where
  name : String
  category : String
  probability : ℚ
  description : String
deriving Repr, DecidableEq

/-- An entry of `current_risks`; `name = none` models a dict without a
`'name'` key (the code subscripts `risk['name']`, which raises). -/
structure CurrentRisk where
  name : Option String := none
deriving Repr, DecidableEq

/-- An emerging-risk record after `predict_emerging_risks` attached its
prediction metadata. -/
structure PredictedRisk where
  name : String
  category : String
  probability : ℚ
  description : String
  predicted_on : String
  time_horizon : String
  predicted_likelihood : ℤ
  predicted_impact : ℤ
deriving Repr, DecidableEq

/-- The static `emerging_risks_db`, looked up with `.get(industry.lower(), [])`.
The float probabilities are written as exact rationals
(`0.75 = 3/4`, `0.68 = 17/25`, `0.80 = 4/5`, `0.72 = 18/25`,
`0.85 = 17/20`, `0.70 = 7/10`). -/
def emerging_risks_db_get (industry_lower : List Char) : List EmergingRisk :=
  if industry_lower = "technology".data then
    [{ name := "AI/ML Security Vulnerabilities", category := "Cybersecurity",
       probability := 3/4,
       description := "Risks from AI model poisoning and adversarial attacks" },
     { name := "Supply Chain Software Risks", category := "Third Party",
       probability := 17/25,
       description := "Vulnerabilities in dependencies and open-source components" }]
  else if industry_lower = "finance".data then
    [{ name := "Regulatory Compliance Changes", category := "Compliance",
       probability := 4/5,
       description := "New financial regulations and reporting requirements" },
     { name := "Digital Payment Fraud", category := "Operational",
       probability := 18/25,
       description := "Sophisticated fraud schemes targeting digital transactions" }]
  else if industry_lower = "healthcare".data then
    [{ name := "Ransomware Targeting Healthcare", category := "Cybersecurity",
       probability := 17/20,
       description := "Increased ransomware attacks on healthcare systems" },
     { name := "Medical Device Security", category := "Cybersecurity",
       probability := 7/10,
       description := "Vulnerabilities in connected medical devices" }]
  else []

/-- `{risk['name'].lower() for risk in current_risks}`: evaluates
`risk['name']` for every entry, raising `KeyError('name')` at the first entry
without that key.  Lowercasing is per character (ASCII). -/
def getNames : List CurrentRisk → Except PyError (List (List Char))
  | [] => Except.ok []
  | c :: rest =>
    match c.name with
    | none => Except.error (PyError.keyError "name")
    | some n =>
      match getNames rest with
      | Except.error e => Except.error e
      | Except.ok names => Except.ok (n.data.map Char.toLower :: names)

/-- `RiskPredictionService.predict_emerging_risks`.  `now` is the value of
`datetime.now().isoformat()` (an environment input). -/
def predict_emerging_risks (industry : String) (current_risks : List CurrentRisk)
    (now : String) : Except PyError (List PredictedRisk) :=
  let base_risks := emerging_risks_db_get (industry.data.map Char.toLower)
  match getNames current_risks with
  | Except.error e => Except.error e
  | Except.ok current_risk_names =>
    let new_risks := base_risks.filter
      (fun r => (r.name.data.map Char.toLower) ∉ current_risk_names)
    Except.ok (new_risks.map (fun r =>
      { name := r.name, category := r.category, probability := r.probability,
        description := r.description,
        predicted_on := now,
        time_horizon := "6-12 months",
        predicted_likelihood := pyInt (r.probability * 5),
        predicted_impact := 4 }))

/-- The first record returned by
`predict_emerging_risks "technology" [] now` (used for concrete instances). -/
def techPredicted1 (now : String) : PredictedRisk :=
  { name := "AI/ML Security Vulnerabilities", category := "Cybersecurity",
    probability := 3/4,
    description := "Risks from AI model poisoning and adversarial attacks",
    predicted_on := now, time_horizon := "6-12 months",
    predicted_likelihood := 3, predicted_impact := 4 }

/-- The second record returned by
`predict_emerging_risks "technology" [] now`. -/
def techPredicted2 (now : String) : PredictedRisk :=
  { name := "Supply Chain Software Risks", category := "Third Party",
    probability := 17/25,
    description := "Vulnerabilities in dependencies and open-source components",
    predicted_on := now, time_horizon := "6-12 months",
    predicted_likelihood := 3, predicted_impact := 4 }

/-! ## Gap Analysis Service (`gap_analysis.py`) -/

/-- One entry of a framework's required-control catalog. -/
structure ReqControl where
  id : String
  name : String
  category : String
  description : String
  priority : String
deriving Repr, DecidableEq

/-- A gap record produced by `analyze_gaps`. -/
structure Gap where
  control_id : String
  control_name : String
  category : String
  description : String
  priority : String
  status : String
deriving Repr, DecidableEq

/-- `_load_iso27001_controls`. -/
def iso27001_controls : List ReqControl :=
  [{ id := "A.5.1", name := "Information Security Policies",
     category := "Organizational Controls",
     description := "Policies for information security", priority := "Critical" },
   { id := "A.5.2", name := "Roles and Responsibilities",
     category := "Organizational Controls",
     description := "Define and communicate security roles", priority := "High" },
   { id := "A.8.1", name := "User Endpoint Devices",
     category := "Technological Controls",
     description := "Protect information on endpoint devices", priority := "High" }]

/-- `_load_soc2_controls`. -/
def soc2_controls : List ReqControl :=
  [{ id := "CC1.1", name := "Control Environment", category := "Common Criteria",
     description := "Demonstrates commitment to integrity and ethical values",
     priority := "Critical" },
   { id := "CC6.1", name := "Logical and Physical Access Controls",
     category := "Common Criteria",
     description := "Restrict access to authorized users", priority := "Critical" }]

/-- `_load_gdpr_requirements`.  (In the source the second entry spells its last
field `priority': 'High'`, dropping the opening quote; it is embedded as the
evident `'priority': 'High'`.) -/
def gdpr_requirements : List ReqControl :=
  [{ id := "Art.32", name := "Security of Processing", category := "Security",
     description := "Implement appropriate technical and organizational measures",
     priority := "Critical" },
   { id := "Art.33", name := "Breach Notification", category := "Incident Management",
     description := "Notify supervisory authority of data breaches",
     priority := "High" }]

/-- The `self.frameworks` dict: `framework in self.frameworks` /
`self.frameworks[framework]`. -/
def frameworks_get (framework : String) : Option (List ReqControl) :=
  if framework = "iso27001" then some iso27001_controls
  else if framework = "soc2" then some soc2_controls
  else if framework = "gdpr" then some gdpr_requirements
  else none

/-- An entry of `current_controls`; `id = none` models a dict without an
`'id'` key (the code subscripts `ctrl['id']`, which raises). -/
structure ImplControl where
  id : Option String := none
deriving Repr, DecidableEq

/-- `{ctrl['id'] for ctrl in current_controls}`: raises `KeyError('id')` at the
first entry without that key. -/
def getIds : List ImplControl → Except PyError (List String)
  | [] => Except.ok []
  | c :: rest =>
    match c.id with
    | none => Except.error (PyError.keyError "id")
    | some i =>
      match getIds rest with
      | Except.error e => Except.error e
      | Except.ok ids => Except.ok (i :: ids)

/-- Build the per-category gap counts in first-encounter order
(`categories[cat] = categories.get(cat, 0) + 1` over an insertion-ordered
dict). -/
def bumpCount : List (String × ℕ) → String → List (String × ℕ)
  | [], c => [(c, 1)]
  | (k, n) :: t, c => if k = c then (k, n + 1) :: t else (k, n) :: bumpCount t c

/-- `GapAnalysisService._generate_recommendations`.  Python's stable
`sorted(..., key=lambda x: x[1], reverse=True)` is modelled by a stable
insertion sort descending on the count. -/
def generate_recommendations (gaps : List Gap) : List String :=
  if gaps.isEmpty then
    ["Great! No gaps identified. Continue monitoring and maintaining controls."]
  else
    let critical := gaps.filter (fun g => g.priority = "Critical")
    let urgent :=
      if critical.isEmpty then []
      else ["URGENT: Address " ++ toString critical.length ++
            " critical gaps immediately to meet compliance requirements."]
    let categories := gaps.foldl (fun acc g => bumpCount acc g.category) []
    let sortedCats :=
      List.insertionSort (fun a b : String × ℕ => b.2 ≤ a.2) categories
    urgent ++ sortedCats.map (fun kc =>
      "Focus on " ++ kc.1 ++ ": " ++ toString kc.2 ++
      " gap(s) identified in this area.")

structure GapAnalysisResult where
  framework : String
  analysis_date : String
  completion_rate : ℚ
  total_required : ℕ
  total_implemented : ℕ
  total_gaps : ℕ
  critical_gaps : ℕ
  high_priority_gaps : ℕ
  gaps : List Gap
  recommendations : List String
deriving Repr, DecidableEq

/-- `GapAnalysisService.analyze_gaps`.  `now` is
`datetime.now().isoformat()`.  The `ValueError(f"Unknown framework: ...")` is
the spec's `UnknownFramework` error. -/
def analyze_gaps (framework : String) (current_controls : List ImplControl)
    (now : String) : Except PyError GapAnalysisResult :=
  match frameworks_get framework with
  | none => Except.error (PyError.valueError ("Unknown framework: " ++ framework))
  | some required_controls =>
    match getIds current_controls with
    | Except.error e => Except.error e
    | Except.ok implemented_ids =>
      let gaps := (required_controls.filter
          (fun rc => rc.id ∉ implemented_ids)).map
        (fun rc =>
          { control_id := rc.id, control_name := rc.name, category := rc.category,
            description := rc.description, priority := rc.priority,
            status := "Missing" })
      let total_required := required_controls.length
      let total_implemented := total_required - gaps.length
      let completion_rate : ℚ :=
        if 0 < total_required then
          ((total_implemented : ℚ) / (total_required : ℚ)) * 100
        else 0
      let critical_gaps := gaps.filter (fun g => g.priority = "Critical")
      let high_gaps := gaps.filter (fun g => g.priority = "High")
      Except.ok
        { framework := framework
          analysis_date := now
          completion_rate := round2 completion_rate
          total_required := total_required
          total_implemented := total_implemented
          total_gaps := gaps.length
          critical_gaps := critical_gaps.length
          high_priority_gaps := high_gaps.length
          gaps := gaps
          recommendations := generate_recommendations gaps }

/-! ## Document Analyzer Service (`document_analyzer.py`) -/

/-- Python `\s` on ASCII text: space, tab, newline, carriage return,
vertical tab, form feed. -/
def isWsChar (c : Char) : Bool :=
  c == ' ' || c == '\t' || c == '\n' || c == '\r' || c == '\x0b' || c == '\x0c'

/-- Length of the longest prefix satisfying `p`. -/
def countLeading (p : Char → Bool) : List Char → ℕ
  | [] => 0
  | c :: rest => if p c then countLeading p rest + 1 else 0

/-- Python `str.strip()`: drop leading and trailing whitespace. -/
def strip (l : List Char) : List Char :=
  ((l.dropWhile isWsChar).reverse.dropWhile isWsChar).reverse

/-- Python `str.split(sep)` for a one-character separator (keeps empty
segments). -/
def splitChar (sep : Char) : List Char → List (List Char)
  | [] => [[]]
  | c :: rest =>
    match splitChar sep rest with
    | [] => [[c]]
    | h :: t => if c = sep then [] :: h :: t else (c :: h) :: t

/-- `len(text.split())`: number of maximal non-whitespace runs. -/
def word_count (l : List Char) : ℕ :=
  (l.foldl
    (fun (st : ℕ × Bool) c =>
      if isWsChar c then (st.1, false)
      else if st.2 then st else (st.1 + 1, true))
    (0, false)).1

/-- `len([s for s in text.split('.') if s.strip()])`. -/
def sentence_count (l : List Char) : ℕ :=
  ((splitChar '.' l).filter (fun s => ¬ (strip s).isEmpty)).length

/-- Python's substring test `needle in hay` on character lists. -/
def containsSub (needle : List Char) : List Char → Bool
  | [] => needle.isEmpty
  | c :: rest => needle.isPrefixOf (c :: rest) || containsSub needle rest

/-- A python `re` match of the anchored heading pattern
`^\d+\.\s+([A-Z][^\n]+)` against a line (which contains no newline):
digits, a period, whitespace, then a capture starting with an ASCII capital
and running to the end of the line (at least two characters). -/
def matchNumberedHeading (l : List Char) : Option (List Char) :=
  let d := countLeading Char.isDigit l
  if 1 ≤ d ∧ (l.drop d).take 1 = ['.'] then
    let rest := l.drop (d + 1)
    let w := countLeading isWsChar rest
    let cap := rest.drop w
    if 1 ≤ w ∧ 2 ≤ cap.length ∧ (cap.take 1).all Char.isUpper then some cap
    else none
  else none

/-- A match of `^([A-Z][A-Z\s]+)$`: an ASCII capital followed by at least one
more capital or whitespace character, spanning the whole line. -/
def matchAllCapsHeading (l : List Char) : Option (List Char) :=
  if 2 ≤ l.length ∧ (l.take 1).all Char.isUpper ∧
      (l.drop 1).all (fun c => c.isUpper || isWsChar c) then some l
  else none

/-- A match of `^#+\s+(.+)$` against an already-stripped line: one or more
`#`, whitespace, then a nonempty capture to the end of the line. -/
def matchMarkdownHeading (l : List Char) : Option (List Char) :=
  let h := countLeading (fun c => c == '#') l
  let rest := l.drop h
  let w := countLeading isWsChar rest
  let cap := rest.drop w
  if 1 ≤ h ∧ 1 ≤ w ∧ ¬ cap.isEmpty then some cap
  else none

/-- `_extract_sections`: each line is stripped and tried against the three
heading patterns in declared order; the first match wins and its capture
group is stripped and collected. -/
def extract_sections (text : String) : List String :=
  (splitChar '\n' text.data).filterMap (fun line =>
    let l := strip line
    match matchNumberedHeading l with
    | some cap => some (String.mk (strip cap))
    | none =>
      match matchAllCapsHeading l with
      | some cap => some (String.mk (strip cap))
      | none =>
        match matchMarkdownHeading l with
        | some cap => some (String.mk (strip cap))
        | none => none)

/-- The `framework_identifiers` alias table of `_identify_frameworks`. -/
def framework_identifiers : List (String × List String) :=
  [("iso27001", ["iso 27001", "iso27001", "iso/iec 27001"]),
   ("soc2", ["soc 2", "soc2", "soc ii"]),
   ("gdpr", ["gdpr", "general data protection regulation"]),
   ("hipaa", ["hipaa", "health insurance portability"]),
   ("pci_dss", ["pci dss", "pci-dss", "payment card industry"])]

/-- `_identify_frameworks`: lowercase the text, report each framework whose
aliases contain a substring of it, at most once, in table order. -/
def identify_frameworks (text : String) : List String :=
  let text_lower := text.data.map Char.toLower
  framework_identifiers.filterMap (fun fw =>
    if fw.2.any (fun i => containsSub i.data text_lower) then some fw.1 else none)

/-- The `required_elements` checklist of `_check_completeness`
(`.get(doc_type, [])`). -/
def required_elements_get (doc_type : String) : List String :=
  if doc_type = "policy" then
    ["purpose", "scope", "responsibilities", "policy statement",
     "compliance", "review", "effective date"]
  else if doc_type = "procedure" then
    ["purpose", "scope", "procedure steps", "responsibilities",
     "references", "records"]
  else if doc_type = "contract" then
    ["parties", "term", "obligations", "confidentiality",
     "liability", "termination"]
  else []

structure CompletenessResult where
  score : ℚ
  found : ℕ
  total_required : ℕ
  missing : List String
deriving Repr, DecidableEq

/-- `_check_completeness`: count checklist elements present as
(case-insensitive) substrings; score is `found/total*100` rounded to one
decimal, or `100` for an empty checklist. -/
def check_completeness (text : String) (doc_type : String) : CompletenessResult :=
  let text_lower := text.data.map Char.toLower
  let required := required_elements_get doc_type
  let missing := required.filter
    (fun e => ¬ containsSub (e.data.map Char.toLower) text_lower)
  let found := (required.filter
    (fun e => containsSub (e.data.map Char.toLower) text_lower)).length
  let score : ℚ :=
    if ¬ required.isEmpty then ((found : ℚ) / (required.length : ℚ)) * 100
    else 100
  { score := round1 score, found := found,
    total_required := required.length, missing := missing }

/-- An extracted requirement (`{'text':..., 'type': 'mandatory',
'position': match.start()}`). -/
structure ExtractedReq where
  text : String
  type : String
  position : ℕ
deriving Repr, DecidableEq

/-- Try the pattern `word\s+([^.]+)` (case-insensitive, `word` given in
lowercase) at the current position.  On success returns the capture group and
the total number of characters consumed by the match.  The whitespace run and
the non-period run from the end of the literal word determine the result; when
the non-period run is exactly the whitespace run, the regex engine backtracks
`\s+` by one character so that `([^.]+)` can capture it. -/
def tryMatch (word : List Char) (cs : List Char) : Option (List Char × ℕ) :=
  if (cs.take word.length).map Char.toLower = word then
    let rest := cs.drop word.length
    let w := countLeading isWsChar rest
    let r := countLeading (fun c => c != '.') rest
    if 1 ≤ w ∧ w < r then
      some ((rest.drop w).take (r - w), word.length + r)
    else if 2 ≤ w ∧ w = r then
      some ((rest.drop (w - 1)).take 1, word.length + r)
    else none
  else none

/-- `re.finditer` for the patterns of `_extract_requirements`: scan left to
right, yielding non-overlapping matches, resuming after each match (advancing
at least one character).  `fuel` bounds the recursion; it is instantiated with
more characters than the text has. -/
def finditer_capture (word : List Char) : ℕ → List Char → ℕ → List (List Char × ℕ)
  | 0, _, _ => []
  | _ + 1, [], _ => []
  | fuel + 1, c :: rest, pos =>
    match tryMatch word (c :: rest) with
    | some capLen =>
      (capLen.1, pos) ::
        finditer_capture word fuel ((c :: rest).drop (max capLen.2 1))
          (pos + max capLen.2 1)
    | none => finditer_capture word fuel rest (pos + 1)

/-- All matches of one requirement pattern over the text. -/
def scan_word (word : String) (text : String) : List (List Char × ℕ) :=
  finditer_capture word.data (text.data.length + 1) text.data 0

/-- The four `requirement_patterns`, in declared order. -/
def requirement_patterns : List String := ["must", "shall", "required to", "mandatory"]

/-- The body of the `finditer` loop: strip the capture and keep it only when
longer than 10 characters (`if len(req_text) > 10`). -/
def spanFilter (capPos : List Char × ℕ) : Option ExtractedReq :=
  let req_text := strip capPos.1
  if 10 < req_text.length then
    some { text := String.mk req_text, type := "mandatory", position := capPos.2 }
  else none

/-- The requirement list before deduplication: all four patterns scanned in
order, each pattern's surviving matches in scan order. -/
def raw_requirements (text : String) : List ExtractedReq :=
  requirement_patterns.flatMap (fun p => (scan_word p text).filterMap spanFilter)

/-- The `seen`-set deduplication loop: drop a requirement whose text was
already seen, keeping the first occurrence. -/
def dedupByText : List ExtractedReq → List String → List ExtractedReq
  | [], _ => []
  | r :: rs, seen =>
    if r.text ∈ seen then dedupByText rs seen
    else r :: dedupByText rs (r.text :: seen)

/-- `_extract_requirements`: scan, filter, deduplicate, return the first 10. -/
def extract_requirements (text : String) : List ExtractedReq :=
  (dedupByText (raw_requirements text) []).take 10

/-- `_calculate_quality_score`. -/
def calculate_quality_score (wc : ℕ) (sections : List String) (completeness : ℚ) : ℚ :=
  let length_score := min 100 (((wc : ℚ) / 1000) * 100)
  let structure_score := min 100 (((sections.length : ℚ) / 5) * 100)
  round1 (completeness * (5/10) + length_score * (25/100) + structure_score * (25/100))

structure DocumentAnalysis where
  document_type : String
  word_count : ℕ
  sentence_count : ℕ
  sections_found : ℕ
  sections : List String
  frameworks_mentioned : List String
  completeness_score : ℚ
  missing_elements : List String
  requirements_identified : ℕ
  requirements : List ExtractedReq
  quality_score : ℚ
deriving Repr, DecidableEq

/-- `DocumentAnalyzerService.analyze_document`. -/
def analyze_document (document_text : String) (document_type : String) :
    DocumentAnalysis :=
  let wc := word_count document_text.data
  let sc := sentence_count document_text.data
  let sections := extract_sections document_text
  let frameworks_mentioned := identify_frameworks document_text
  let completeness := check_completeness document_text document_type
  let requirements := extract_requirements document_text
  { document_type := document_type
    word_count := wc
    sentence_count := sc
    sections_found := sections.length
    sections := sections
    frameworks_mentioned := frameworks_mentioned
    completeness_score := completeness.score
    missing_elements := completeness.missing
    requirements_identified := requirements.length
    requirements := requirements
    quality_score := calculate_quality_score wc sections completeness.score }

/-! ## Recommendation Engine (`recommendation_engine.py`): remediation
prioritization -/

/-- A gap record as consumed by `prioritize_remediation`; every field is read
with `.get`, so `none` models an absent key and never fails. -/
structure RemGap where
  priority : Option String := none
  complexity : Option String := none
  cost : Option String := none
deriving Repr, DecidableEq

/-- A gap after `prioritize_remediation` attached `priority_score` and
`action`. -/
structure ScoredGap where
  priority : Option String
  complexity : Option String
  cost : Option String
  priority_score : ℕ
  action : String
deriving Repr, DecidableEq

/-- The scoring body of `prioritize_remediation`: severity contribution
(`Critical` 100, `High` 75, `Medium` 50, otherwise 25), plus complexity
contribution (`Low` 30, `Medium` 15, otherwise 0, with missing complexity
defaulting to `Medium`), plus cost contribution (`Low` 20, `Medium` 10,
otherwise 0, with missing cost defaulting to `Medium`), then the recommended
action from the total. -/
def scoreRemGap (gap : RemGap) : ScoredGap :=
  let sev : ℕ :=
    if gap.priority = some "Critical" then 100
    else if gap.priority = some "High" then 75
    else if gap.priority = some "Medium" then 50
    else 25
  let complexity := gap.complexity.getD "Medium"
  let compl : ℕ :=
    if complexity = "Low" then 30
    else if complexity = "Medium" then 15
    else 0
  let cost := gap.cost.getD "Medium"
  let costc : ℕ :=
    if cost = "Low" then 20
    else if cost = "Medium" then 10
    else 0
  let priority_score := sev + compl + costc
  { priority := gap.priority, complexity := gap.complexity, cost := gap.cost,
    priority_score := priority_score,
    action :=
      if 150 ≤ priority_score then "Immediate - Start within 1 week"
      else if 100 ≤ priority_score then "High Priority - Start within 1 month"
      else if 50 ≤ priority_score then "Medium Priority - Plan for next quarter"
      else "Low Priority - Address as resources allow" }

/-- `RecommendationEngine.prioritize_remediation`: score every gap, then
`gaps.sort(key=lambda x: x['priority_score'], reverse=True)` — a stable
descending sort, modelled by a stable insertion sort. -/
def prioritize_remediation (gaps : List RemGap) : List ScoredGap :=
  List.insertionSort (fun a b : ScoredGap => b.priority_score ≤ a.priority_score)
    (gaps.map scoreRemGap)

/-- Severity rank of the recognized threat levels:
`low < medium < high < critical` (used only to state monotonicity). -/
def sevRank (tl : String) : ℕ :=
  if tl = "low" then 0
  else if tl = "medium" then 1
  else if tl = "high" then 2
  else if tl = "critical" then 3
  else 1

/-- A gap with priority Critical, complexity Low, cost Low (concrete
instance for `prioritize_remediation`). -/
def critLowLowGap : RemGap :=
  { priority := some "Critical", complexity := some "Low", cost := some "Low" }

/-- The scored form of [[critLowLowGap]]: score 150, Immediate action. -/
def critLowLowScored : ScoredGap :=
  { priority := some "Critical", complexity := some "Low", cost := some "Low",
    priority_score := 150, action := "Immediate - Start within 1 week" }

/-- Specification-side definition for the C5 refinement: deduplication
"by exact text match keeping the first occurrence", stated directly — keep
the head and drop every later equal element. -/
def firstOccurrences : List String → List String
  | [] => []
  | x :: xs => x :: firstOccurrences (xs.filter (fun y => y ≠ x))
termination_by l => l.length
decreasing_by
  simp only [List.length_cons]
  exact Nat.lt_succ_of_le (List.length_filter_le _ _)

/-! ## Helper lemmas -/

theorem pyRoundHalfEven_ge_floor (x : ℚ) : ⌊x⌋ ≤ pyRoundHalfEven x := by
  simp only [pyRoundHalfEven]
  split_ifs <;> omega

theorem pyRoundHalfEven_le_floor_add_one (x : ℚ) : pyRoundHalfEven x ≤ ⌊x⌋ + 1 := by
  simp only [pyRoundHalfEven]
  split_ifs <;> omega

theorem pyRoundHalfEven_mono {x y : ℚ} (h : x ≤ y) :
    pyRoundHalfEven x ≤ pyRoundHalfEven y := by
  have hf : ⌊x⌋ ≤ ⌊y⌋ := Int.floor_mono h
  rcases lt_or_eq_of_le hf with hlt | heq
  · have h1 := pyRoundHalfEven_le_floor_add_one x
    have h2 := pyRoundHalfEven_ge_floor y
    omega
  · have heqq : ((⌊x⌋ : ℤ) : ℚ) = ((⌊y⌋ : ℤ) : ℚ) := by exact_mod_cast heq
    simp only [pyRoundHalfEven]
    split_ifs <;> first | omega | linarith

theorem round2_mono {x y : ℚ} (h : x ≤ y) : round2 x ≤ round2 y := by
  have : pyRoundHalfEven (x * 100) ≤ pyRoundHalfEven (y * 100) :=
    pyRoundHalfEven_mono (by linarith)
  have hc : ((pyRoundHalfEven (x * 100) : ℤ) : ℚ) ≤ pyRoundHalfEven (y * 100) := by
    exact_mod_cast this
  simp only [round2]
  linarith

theorem threatMultiplier_nonneg (tl : String) : 0 ≤ threatMultiplier tl := by
  simp only [threatMultiplier]
  split_ifs <;> norm_num

/-! ## Claims about `calculate_risk_score` (C1, C6, C10) -/

/-- C1: for inputs with likelihood and impact in 1–5, control effectiveness in
0–100 and any threat level, `calculate_risk_score` classifies the score
`likelihood * (1 - controlEffectiveness/100 * 0.4) * impact * threatMultiplier`
by inclusive lower-bound thresholds evaluated highest-first
(`≥15 → Critical/1`, `≥10 → High/2`, `≥5 → Medium/3`, else `Low/4`), with
multipliers low `0.8`, medium `1.0`, high `1.3`, critical `1.5` and
unrecognized threat levels treated as medium (`1.0`); a computed score of
exactly `15.0` classifies as Critical and `14.999` as High. -/
theorem c1_risk_score_formula (l i ce : ℚ) (tl : String)
    (hl1 : 1 ≤ l) (hl5 : l ≤ 5) (hi1 : 1 ≤ i) (hi5 : i ≤ 5)
    (hce0 : 0 ≤ ce) (hce1 : ce ≤ 100) :
    ((calculate_risk_score (mkRiskData l i ce tl)).classification,
        (calculate_risk_score (mkRiskData l i ce tl)).priority) =
      (if 15 ≤ l * (1 - ce / 100 * (4/10)) * i * threatMultiplier tl then ("Critical", 1)
       else if 10 ≤ l * (1 - ce / 100 * (4/10)) * i * threatMultiplier tl then ("High", 2)
       else if 5 ≤ l * (1 - ce / 100 * (4/10)) * i * threatMultiplier tl then ("Medium", 3)
       else ("Low", 4)) ∧
    threatMultiplier "low" = 8/10 ∧ threatMultiplier "medium" = 1 ∧
    threatMultiplier "high" = 13/10 ∧ threatMultiplier "critical" = 15/10 ∧
    (tl ∉ ["low", "medium", "high", "critical"] → threatMultiplier tl = 1) ∧
    (l * (1 - ce / 100 * (4/10)) * i * threatMultiplier tl = 15 →
      (calculate_risk_score (mkRiskData l i ce tl)).classification = "Critical") ∧
    (l * (1 - ce / 100 * (4/10)) * i * threatMultiplier tl = 14999/1000 →
      (calculate_risk_score (mkRiskData l i ce tl)).classification = "High") := by
  refine ⟨Prod.mk.eta, by simp [threatMultiplier], by simp [threatMultiplier],
    by simp [threatMultiplier], by simp [threatMultiplier], ?_, ?_, ?_⟩
  · intro h
    simp only [List.mem_cons, List.not_mem_nil, or_false, not_or] at h
    obtain ⟨h1, h2, h3, h4⟩ := h
    simp only [threatMultiplier, if_neg h1, if_neg h2, if_neg h3, if_neg h4]
  · intro he
    show (classify_risk (l * (1 - ce / 100 * (4/10)) * i * threatMultiplier tl)).1 = _
    rw [he]
    norm_num [classify_risk]
  · intro he
    show (classify_risk (l * (1 - ce / 100 * (4/10)) * i * threatMultiplier tl)).1 = _
    rw [he]
    norm_num [classify_risk]

/-- Witness for C1: the theorem applied at likelihood 3, impact 3, control
effectiveness 70, threat level `medium`. -/
theorem c1_risk_score_formula_witness :
    ((1 : ℚ) ≤ 3 ∧ (3 : ℚ) ≤ 5 ∧ (0 : ℚ) ≤ 70 ∧ (70 : ℚ) ≤ 100) ∧
    (((calculate_risk_score (mkRiskData 3 3 70 "medium")).classification,
        (calculate_risk_score (mkRiskData 3 3 70 "medium")).priority) =
      (if 15 ≤ (3 : ℚ) * (1 - 70 / 100 * (4/10)) * 3 * threatMultiplier "medium" then
        ("Critical", 1)
       else if 10 ≤ (3 : ℚ) * (1 - 70 / 100 * (4/10)) * 3 * threatMultiplier "medium" then
        ("High", 2)
       else if 5 ≤ (3 : ℚ) * (1 - 70 / 100 * (4/10)) * 3 * threatMultiplier "medium" then
        ("Medium", 3)
       else ("Low", 4)) ∧
     threatMultiplier "low" = 8/10 ∧ threatMultiplier "medium" = 1 ∧
     threatMultiplier "high" = 13/10 ∧ threatMultiplier "critical" = 15/10 ∧
     ("medium" ∉ ["low", "medium", "high", "critical"] → threatMultiplier "medium" = 1) ∧
     ((3 : ℚ) * (1 - 70 / 100 * (4/10)) * 3 * threatMultiplier "medium" = 15 →
       (calculate_risk_score (mkRiskData 3 3 70 "medium")).classification = "Critical") ∧
     ((3 : ℚ) * (1 - 70 / 100 * (4/10)) * 3 * threatMultiplier "medium" = 14999/1000 →
       (calculate_risk_score (mkRiskData 3 3 70 "medium")).classification = "High")) :=
  ⟨by norm_num,
   c1_risk_score_formula 3 3 70 "medium" (by norm_num) (by norm_num) (by norm_num)
     (by norm_num) (by norm_num) (by norm_num)⟩

/-- C10: `calculate_risk_score` classifies by the unrounded score but reports
`risk_score` rounded to two decimals, so the input likelihood 5, impact 3,
control effectiveness 0.05, threat level `medium` (unrounded score `14.997`)
yields `risk_score = 15.0` with the lower-tier classification `High`
(priority 2). -/
theorem c10_rounded_score_crosses_threshold :
    (calculate_risk_score (mkRiskData 5 3 (1/20) "medium")).risk_score = 15 ∧
    (calculate_risk_score (mkRiskData 5 3 (1/20) "medium")).classification = "High" ∧
    (calculate_risk_score (mkRiskData 5 3 (1/20) "medium")).priority = 2 ∧
    (5 : ℚ) * (1 - (1/20) / 100 * (4/10)) * 3 * threatMultiplier "medium" = 14997/1000 := by
  have hm : threatMultiplier "medium" = 1 := by simp [threatMultiplier]
  refine ⟨?_, ?_, ?_, by rw [hm]; norm_num⟩
  · show round2 ((5 : ℚ) * (1 - (1/20) / 100 * (4/10)) * 3 * threatMultiplier "medium") = 15
    rw [hm]
    norm_num [round2, pyRoundHalfEven, Int.fract]
  · show (classify_risk ((5 : ℚ) * (1 - (1/20) / 100 * (4/10)) * 3 * threatMultiplier "medium")).1 = _
    rw [hm]
    norm_num [classify_risk]
  · show (classify_risk ((5 : ℚ) * (1 - (1/20) / 100 * (4/10)) * 3 * threatMultiplier "medium")).2 = _
    rw [hm]
    norm_num [classify_risk]

theorem threatMultiplier_mono_of_rank {tl₁ tl₂ : String}
    (h1 : tl₁ ∈ ["low", "medium", "high", "critical"])
    (h2 : tl₂ ∈ ["low", "medium", "high", "critical"])
    (hr : sevRank tl₁ ≤ sevRank tl₂) :
    threatMultiplier tl₁ ≤ threatMultiplier tl₂ := by
  simp only [List.mem_cons, List.not_mem_nil, or_false] at h1 h2
  rcases h1 with rfl | rfl | rfl | rfl <;> rcases h2 with rfl | rfl | rfl | rfl <;>
    simp_all [sevRank, threatMultiplier] <;> norm_num

/-- C6: holding likelihood (1–5) and control effectiveness (0–100) fixed, the
risk score returned by `calculate_risk_score` is monotonically non-decreasing
in impact (1–5) for any threat level, and monotonically non-decreasing in
threat-level severity (`low < medium < high < critical`) for any impact. -/
theorem c6_risk_score_monotone (l ce i i₁ i₂ : ℚ) (tl tl₁ tl₂ : String)
    (hl1 : 1 ≤ l) (hl5 : l ≤ 5) (hce0 : 0 ≤ ce) (hce1 : ce ≤ 100)
    (hi1 : 1 ≤ i₁) (hi12 : i₁ ≤ i₂) (hi2 : i₂ ≤ 5)
    (hi : 1 ≤ i) (hi5 : i ≤ 5)
    (ht1 : tl₁ ∈ ["low", "medium", "high", "critical"])
    (ht2 : tl₂ ∈ ["low", "medium", "high", "critical"])
    (hrank : sevRank tl₁ ≤ sevRank tl₂) :
    (calculate_risk_score (mkRiskData l i₁ ce tl)).risk_score ≤
      (calculate_risk_score (mkRiskData l i₂ ce tl)).risk_score ∧
    (calculate_risk_score (mkRiskData l i ce tl₁)).risk_score ≤
      (calculate_risk_score (mkRiskData l i ce tl₂)).risk_score := by
  have hadj : 0 ≤ l * (1 - ce / 100 * (4/10)) := by
    apply mul_nonneg (by linarith)
    have : ce / 100 ≤ 1 := by linarith
    nlinarith
  constructor
  · show round2 (l * (1 - ce / 100 * (4/10)) * i₁ * threatMultiplier tl) ≤
      round2 (l * (1 - ce / 100 * (4/10)) * i₂ * threatMultiplier tl)
    apply round2_mono
    apply mul_le_mul_of_nonneg_right _ (threatMultiplier_nonneg tl)
    exact mul_le_mul_of_nonneg_left hi12 hadj
  · show round2 (l * (1 - ce / 100 * (4/10)) * i * threatMultiplier tl₁) ≤
      round2 (l * (1 - ce / 100 * (4/10)) * i * threatMultiplier tl₂)
    apply round2_mono
    apply mul_le_mul_of_nonneg_left (threatMultiplier_mono_of_rank ht1 ht2 hrank)
    exact mul_nonneg hadj (by linarith)

/-- Witness for C6: likelihood 3, control effectiveness 50, impacts 2 ≤ 4,
threat levels `low` ≤ `critical`. -/
theorem c6_risk_score_monotone_witness :
    ((1 : ℚ) ≤ 3 ∧ (3 : ℚ) ≤ 5 ∧ (0 : ℚ) ≤ 50 ∧ (50 : ℚ) ≤ 100 ∧
     (1 : ℚ) ≤ 2 ∧ (2 : ℚ) ≤ 4 ∧ (4 : ℚ) ≤ 5 ∧
     "low" ∈ ["low", "medium", "high", "critical"] ∧
     "critical" ∈ ["low", "medium", "high", "critical"] ∧
     sevRank "low" ≤ sevRank "critical") ∧
    ((calculate_risk_score (mkRiskData 3 2 50 "medium")).risk_score ≤
       (calculate_risk_score (mkRiskData 3 4 50 "medium")).risk_score ∧
     (calculate_risk_score (mkRiskData 3 2 50 "low")).risk_score ≤
       (calculate_risk_score (mkRiskData 3 2 50 "critical")).risk_score) :=
  ⟨⟨by norm_num, by norm_num, by norm_num, by norm_num, by norm_num, by norm_num,
    by norm_num, by simp, by simp, by simp [sevRank]⟩,
   c6_risk_score_monotone 3 50 2 2 4 "medium" "low" "critical"
     (by norm_num) (by norm_num) (by norm_num) (by norm_num) (by norm_num)
     (by norm_num) (by norm_num) (by norm_num) (by norm_num)
     (by simp) (by simp) (by simp [sevRank])⟩

/-! ## Claims about `predict_emerging_risks` (C2) -/

/-- Counterexample to C2 as stated: for industry `technology` and no current
risks, the first returned record has catalog probability `0.75` and carries
`predicted_likelihood = 3`, whereas `round(0.75 * 5) = round(3.75) = 4` — the
code truncates with `int(...)` instead of rounding. -/
theorem c2_counterexample_truncation_not_rounding :
    (predict_emerging_risks "technology" [] "T").map
        (fun l => l.map (fun r => (r.probability, r.predicted_likelihood))) =
      Except.ok [(3/4, 3), (17/25, 3)] ∧
    pyRoundHalfEven ((3/4 : ℚ) * 5) = 4 ∧
    ¬ ((3 : ℤ) = pyRoundHalfEven ((3/4 : ℚ) * 5)) := by
  have hlow : ("technology".data.map Char.toLower) = "technology".data := by decide
  refine ⟨?_, ?_, ?_⟩
  · simp only [predict_emerging_risks, getNames, hlow, emerging_risks_db_get,
      if_pos rfl, List.filter, List.not_mem_nil, not_false_iff,
      List.map, Except.map]
    norm_num [pyInt]
  · norm_num [pyRoundHalfEven, Int.fract]
  · norm_num [pyRoundHalfEven, Int.fract]

/-- C2 (amended): whenever `predict_emerging_risks` succeeds, every returned
record carries `predicted_likelihood = int(probability * 5)` (truncation
toward zero, not rounding), the constant `predicted_impact = 4`, the fixed
`6-12 months` horizon label and the generation timestamp. -/
theorem c2_predicted_fields (industry : String) (crs : List CurrentRisk)
    (now : String) (l : List PredictedRisk) (r : PredictedRisk)
    (hok : predict_emerging_risks industry crs now = Except.ok l) (hr : r ∈ l) :
    r.predicted_likelihood = pyInt (r.probability * 5) ∧
    r.predicted_impact = 4 ∧
    r.time_horizon = "6-12 months" ∧
    r.predicted_on = now := by
  rcases hgn : getNames crs with e | names
  · rw [predict_emerging_risks, hgn] at hok
    cases hok
  · rw [predict_emerging_risks, hgn] at hok
    rw [Except.ok.injEq] at hok
    subst hok
    rcases List.mem_map.mp hr with ⟨e, _, rfl⟩
    exact ⟨rfl, rfl, rfl, rfl⟩

/-- Witness for C2 (amended): the theorem applied to the first record returned
for industry `technology` with no current risks. -/
theorem c2_predicted_fields_witness :
    (techPredicted1 "T").predicted_likelihood =
      pyInt ((techPredicted1 "T").probability * 5) ∧
    (techPredicted1 "T").predicted_impact = 4 ∧
    (techPredicted1 "T").time_horizon = "6-12 months" ∧
    (techPredicted1 "T").predicted_on = "T" := by
  apply c2_predicted_fields "technology" [] "T"
    [techPredicted1 "T", techPredicted2 "T"] (techPredicted1 "T")
  · have hlow : ("technology".data.map Char.toLower) = "technology".data := by decide
    simp only [predict_emerging_risks, getNames, hlow, emerging_risks_db_get,
      if_pos rfl, List.filter, List.not_mem_nil, not_false_iff,
      List.map, Except.ok.injEq, techPredicted1, techPredicted2]
    norm_num [pyInt]
  · simp

/-! ## Claims about `analyze_gaps` and totality (C3, C4) -/

theorem getIds_ok_of_isSome {ctrls : List ImplControl}
    (h : ∀ c ∈ ctrls, c.id.isSome) : ∃ ids, getIds ctrls = Except.ok ids := by
  induction ctrls with
  | nil => exact ⟨[], rfl⟩
  | cons c rest ih =>
    rcases hc : c.id with _ | i
    · have := h c (List.mem_cons_self c rest)
      rw [hc] at this
      cases this
    · obtain ⟨ids, hids⟩ := ih (fun x hx => h x (List.mem_cons_of_mem c hx))
      exact ⟨i :: ids, by rw [getIds, hc, hids]⟩

theorem getIds_error_is_keyError {ctrls : List ImplControl} {e : PyError}
    (h : getIds ctrls = Except.error e) : e = PyError.keyError "id" := by
  induction ctrls with
  | nil => cases h
  | cons c rest ih =>
    rcases hc : c.id with _ | i
    · rw [getIds, hc] at h
      cases h
      rfl
    · rw [getIds, hc] at h
      rcases hg : getIds rest with e2 | ids
      · rw [hg] at h
        cases h
        exact ih hg
      · rw [hg] at h
        cases h

theorem getNames_ok_of_isSome {crs : List CurrentRisk}
    (h : ∀ c ∈ crs, c.name.isSome) : ∃ names, getNames crs = Except.ok names := by
  induction crs with
  | nil => exact ⟨[], rfl⟩
  | cons c rest ih =>
    rcases hc : c.name with _ | n
    · have := h c (List.mem_cons_self c rest)
      rw [hc] at this
      cases this
    · obtain ⟨names, hnames⟩ := ih (fun x hx => h x (List.mem_cons_of_mem c hx))
      exact ⟨n.data.map Char.toLower :: names, by rw [getNames, hc, hnames]⟩

theorem frameworks_get_of_supported {fw : String}
    (h : fw ∈ ["iso27001", "soc2", "gdpr"]) :
    ∃ rc, frameworks_get fw = some rc := by
  simp only [List.mem_cons, List.not_mem_nil, or_false] at h
  rcases h with rfl | rfl | rfl <;> exact ⟨_, rfl⟩

theorem frameworks_get_of_unsupported {fw : String}
    (h : fw ∉ ["iso27001", "soc2", "gdpr"]) : frameworks_get fw = none := by
  simp only [List.mem_cons, List.not_mem_nil, or_false, not_or] at h
  obtain ⟨h1, h2, h3⟩ := h
  simp only [frameworks_get, if_neg h1, if_neg h2, if_neg h3]

theorem analyze_gaps_ok_of_supported {fw : String} {ctrls : List ImplControl}
    (now : String) (hfw : fw ∈ ["iso27001", "soc2", "gdpr"])
    (hids : ∀ c ∈ ctrls, c.id.isSome) :
    ∃ r, analyze_gaps fw ctrls now = Except.ok r := by
  obtain ⟨rc, hrc⟩ := frameworks_get_of_supported hfw
  obtain ⟨ids, hg⟩ := getIds_ok_of_isSome hids
  exact ⟨_, by rw [analyze_gaps, hrc, hg]⟩

/-- C4 (amended): `analyze_gaps` fails with the `UnknownFramework` error
(`ValueError("Unknown framework: ...")`) exactly when the framework key is
outside `{iso27001, soc2, gdpr}`, for every control list; for a supported
framework and a control list whose entries each carry an `'id'` key it
returns a result without error. -/
theorem c4_unknown_framework (fw : String) (ctrls : List ImplControl) (now : String) :
    (analyze_gaps fw ctrls now =
        Except.error (PyError.valueError ("Unknown framework: " ++ fw)) ↔
      fw ∉ ["iso27001", "soc2", "gdpr"]) ∧
    ((∀ c ∈ ctrls, c.id.isSome) → fw ∈ ["iso27001", "soc2", "gdpr"] →
      ∃ r, analyze_gaps fw ctrls now = Except.ok r) := by
  constructor
  · constructor
    · intro h hmem
      obtain ⟨rc, hrc⟩ := frameworks_get_of_supported hmem
      rw [analyze_gaps, hrc] at h
      rcases hg : getIds ctrls with e | ids
      · rw [hg] at h
        rw [Except.error.injEq] at h
        have := getIds_error_is_keyError hg
        rw [h] at this
        cases this
      · rw [hg] at h
        cases h
    · intro hnot
      rw [analyze_gaps, frameworks_get_of_unsupported hnot]
  · intro hids hmem
    exact analyze_gaps_ok_of_supported now hmem hids

/-- Witness for C4: the theorem applied at framework `iso27001`, an empty
control list and both hypotheses discharged. -/
theorem c4_unknown_framework_witness :
    (analyze_gaps "iso27001" [] "T" =
        Except.error (PyError.valueError ("Unknown framework: " ++ "iso27001")) ↔
      "iso27001" ∉ ["iso27001", "soc2", "gdpr"]) ∧
    (∃ r, analyze_gaps "iso27001" [] "T" = Except.ok r) :=
  ⟨(c4_unknown_framework "iso27001" [] "T").1,
   (c4_unknown_framework "iso27001" [] "T").2 (by simp) (by simp)⟩

/-- Counterexample to C4 as stated: `soc2` is a supported framework, yet
`analyze_gaps` on a control list whose entry lacks an `'id'` key does not
return a result — it fails with `KeyError('id')` (which is also not the
`UnknownFramework` error, in accordance with the iff clause). -/
theorem c4_counterexample_supported_framework_raises :
    "soc2" ∈ ["iso27001", "soc2", "gdpr"] ∧
    analyze_gaps "soc2" [{ id := none }] "T" =
      Except.error (PyError.keyError "id") ∧
    analyze_gaps "soc2" [{ id := none }] "T" ≠
      Except.error (PyError.valueError ("Unknown framework: " ++ "soc2")) := by
  refine ⟨by simp, ?_, ?_⟩
  · rw [analyze_gaps]
    rfl
  · rw [analyze_gaps]
    intro h
    cases h

/-- Counterexample to C3 as stated: an `implementedControls` entry without an
`'id'` key makes `analyze_gaps` fail with `KeyError('id')` even on the
supported framework `iso27001`, and a `currentRisks` entry without a `'name'`
key makes `predict_emerging_risks` fail with `KeyError('name')` — malformed
entries are not replaced by defaults. -/
theorem c3_counterexample_malformed_entries_raise :
    analyze_gaps "iso27001" [{ id := none }] "T" =
      Except.error (PyError.keyError "id") ∧
    predict_emerging_risks "technology" [{ name := none }] "T" =
      Except.error (PyError.keyError "name") := by
  constructor
  · rw [analyze_gaps]
    rfl
  · rw [predict_emerging_risks]
    rfl

/-- C3 (amended): the engine substitutes defaults for missing optional scalar
fields (as in `calculate_risk_score` and `prioritize_remediation`), but the
identifier fields of list entries are mandatory: on a supported framework
`analyze_gaps` succeeds provided every `implementedControls` entry carries an
`'id'` key, and `predict_emerging_risks` succeeds provided every
`currentRisks` entry carries a `'name'` key. -/
theorem c3_totality_with_mandatory_keys :
    (∀ fw, fw ∈ ["iso27001", "soc2", "gdpr"] →
      ∀ (ctrls : List ImplControl) (now : String), (∀ c ∈ ctrls, c.id.isSome) →
        ∃ r, analyze_gaps fw ctrls now = Except.ok r) ∧
    (∀ (industry : String) (crs : List CurrentRisk) (now : String),
      (∀ c ∈ crs, c.name.isSome) →
        ∃ l, predict_emerging_risks industry crs now = Except.ok l) := by
  constructor
  · intro fw hmem ctrls now hids
    exact analyze_gaps_ok_of_supported now hmem hids
  · intro industry crs now hnames
    obtain ⟨names, hn⟩ := getNames_ok_of_isSome hnames
    exact ⟨_, by rw [predict_emerging_risks, hn]⟩

/-- Witness for C3 (amended): both parts applied at concrete well-formed
inputs. -/
theorem c3_totality_witness :
    (∃ r, analyze_gaps "gdpr" [{ id := some "Art.32" }] "T" = Except.ok r) ∧
    (∃ l, predict_emerging_risks "finance" [{ name := some "Digital Payment Fraud" }] "T" =
      Except.ok l) :=
  ⟨c3_totality_with_mandatory_keys.1 "gdpr" (by simp) [{ id := some "Art.32" }] "T"
    (by intro c hc; simp at hc; subst hc; rfl),
   c3_totality_with_mandatory_keys.2 "finance" [{ name := some "Digital Payment Fraud" }] "T"
    (by intro c hc; simp at hc; subst hc; rfl)⟩

/-! ## Claim about unknown document types (C8) -/

/-- C8: for any document text, `analyze_document` with a document type outside
`{policy, procedure, contract}` uses an empty required-element checklist and
returns a completeness score of exactly 100 with no missing elements. -/
theorem c8_unknown_document_type (text dt : String)
    (h : dt ∉ ["policy", "procedure", "contract"]) :
    required_elements_get dt = [] ∧
    (analyze_document text dt).completeness_score = 100 ∧
    (analyze_document text dt).missing_elements = [] := by
  simp only [List.mem_cons, List.not_mem_nil, or_false, not_or] at h
  obtain ⟨h1, h2, h3⟩ := h
  have hreq : required_elements_get dt = [] := by
    simp only [required_elements_get, if_neg h1, if_neg h2, if_neg h3]
  refine ⟨hreq, ?_, ?_⟩
  · show (check_completeness text dt).score = 100
    simp only [check_completeness, hreq, List.filter_nil, List.isEmpty_nil,
      not_true, if_neg, ite_false, if_false]
    norm_num [round1, pyRoundHalfEven, Int.fract]
  · show (check_completeness text dt).missing = []
    simp only [check_completeness, hreq, List.filter_nil]

/-- Witness for C8: document type `memo` is not in the checklist table. -/
theorem c8_unknown_document_type_witness :
    "memo" ∉ ["policy", "procedure", "contract"] ∧
    (required_elements_get "memo" = [] ∧
     (analyze_document "some text" "memo").completeness_score = 100 ∧
     (analyze_document "some text" "memo").missing_elements = []) :=
  ⟨by simp, c8_unknown_document_type "some text" "memo" (by simp)⟩

/-! ## Claim about `prioritize_remediation` (C7) -/

/-- C7: every gap returned by `prioritize_remediation` carries
`priorityScore` = severity contribution (Critical 100, High 75, Medium 50,
otherwise 25) + complexity contribution (Low 30, Medium 15, otherwise 0) +
cost contribution (Low 20, Medium 10, otherwise 0) and the urgency band
(`≥150` Immediate, `≥100` High Priority, `≥50` Medium Priority, else Low
Priority); the output is sorted descending by `priorityScore` and is a
permutation of the scored input; a Critical/Low/Low gap gets score 150 and
the Immediate action. -/
theorem c7_prioritize_remediation (gaps : List RemGap) :
    (∀ g ∈ prioritize_remediation gaps,
      g.priority_score =
        (if g.priority = some "Critical" then 100
         else if g.priority = some "High" then 75
         else if g.priority = some "Medium" then 50
         else 25) +
        (if g.complexity.getD "Medium" = "Low" then 30
         else if g.complexity.getD "Medium" = "Medium" then 15
         else 0) +
        (if g.cost.getD "Medium" = "Low" then 20
         else if g.cost.getD "Medium" = "Medium" then 10
         else 0) ∧
      g.action =
        (if 150 ≤ g.priority_score then "Immediate - Start within 1 week"
         else if 100 ≤ g.priority_score then "High Priority - Start within 1 month"
         else if 50 ≤ g.priority_score then "Medium Priority - Plan for next quarter"
         else "Low Priority - Address as resources allow")) ∧
    List.Sorted (fun a b : ℕ => b ≤ a)
      ((prioritize_remediation gaps).map ScoredGap.priority_score) ∧
    (prioritize_remediation gaps).Perm (gaps.map scoreRemGap) ∧
    prioritize_remediation [critLowLowGap] = [critLowLowScored] := by
  haveI ht : IsTotal ScoredGap (fun a b : ScoredGap => b.priority_score ≤ a.priority_score) :=
    ⟨fun a b => le_total b.priority_score a.priority_score⟩
  haveI htr : IsTrans ScoredGap (fun a b : ScoredGap => b.priority_score ≤ a.priority_score) :=
    ⟨fun _ _ _ hab hbc => le_trans hbc hab⟩
  refine ⟨?_, ?_, List.perm_insertionSort _ _, ?_⟩
  · intro g hg
    have hmem : g ∈ gaps.map scoreRemGap :=
      (List.perm_insertionSort _ _).mem_iff.mp hg
    rcases List.mem_map.mp hmem with ⟨g₀, _, rfl⟩
    exact ⟨rfl, rfl⟩
  · have hs := List.sorted_insertionSort
      (fun a b : ScoredGap => b.priority_score ≤ a.priority_score)
      (gaps.map scoreRemGap)
    exact List.Pairwise.map ScoredGap.priority_score (fun a b h => h) hs
  · rfl

/-- Witness for C7: the membership clause applied to the single
Critical/Low/Low gap. -/
theorem c7_prioritize_remediation_witness :
    critLowLowScored.priority_score =
      (if critLowLowScored.priority = some "Critical" then 100
       else if critLowLowScored.priority = some "High" then 75
       else if critLowLowScored.priority = some "Medium" then 50
       else 25) +
      (if critLowLowScored.complexity.getD "Medium" = "Low" then 30
       else if critLowLowScored.complexity.getD "Medium" = "Medium" then 15
       else 0) +
      (if critLowLowScored.cost.getD "Medium" = "Low" then 20
       else if critLowLowScored.cost.getD "Medium" = "Medium" then 10
       else 0) ∧
    critLowLowScored.action =
      (if 150 ≤ critLowLowScored.priority_score then "Immediate - Start within 1 week"
       else if 100 ≤ critLowLowScored.priority_score then "High Priority - Start within 1 month"
       else if 50 ≤ critLowLowScored.priority_score then "Medium Priority - Plan for next quarter"
       else "Low Priority - Address as resources allow") :=
  (c7_prioritize_remediation [critLowLowGap]).1 critLowLowScored
    (by rw [(c7_prioritize_remediation []).2.2.2]; simp)

/-! ## Claims about `extract_requirements` (C5, C9) -/

theorem dedupByText_sublist :
    ∀ (l : List ExtractedReq) (seen : List String), (dedupByText l seen).Sublist l := by
  intro l
  induction l with
  | nil => intro seen; exact List.Sublist.refl []
  | cons r rs ih =>
    intro seen
    rw [dedupByText]
    by_cases h : r.text ∈ seen
    · rw [if_pos h]
      exact (ih seen).cons r
    · rw [if_neg h]
      exact (ih (r.text :: seen)).cons₂ r

theorem dedupByText_map_text :
    ∀ (l : List ExtractedReq) (seen : List String),
      (dedupByText l seen).map ExtractedReq.text =
        firstOccurrences ((l.map ExtractedReq.text).filter (fun t => t ∉ seen)) := by
  intro l
  induction l with
  | nil => intro seen; simp [dedupByText, firstOccurrences]
  | cons r rs ih =>
    intro seen
    rw [dedupByText, List.map_cons, List.filter_cons]
    by_cases h : r.text ∈ seen
    · rw [if_pos h]
      simp only [h, not_true, decide_False, if_false, ite_false, Bool.false_eq_true]
      exact ih seen
    · rw [if_neg h]
      simp only [h, not_false_iff, decide_True, if_true, ite_true]
      rw [List.map_cons]
      simp only [firstOccurrences]
      rw [ih (r.text :: seen)]
      congr 1
      rw [List.filter_filter]
      apply congrArg
      apply List.filter_congr
      intro a _
      by_cases h1 : a = r.text <;> by_cases h2 : a ∈ seen <;>
        simp [h1, h2, List.mem_cons]

theorem dedupByText_nodup :
    ∀ (l : List ExtractedReq) (seen : List String),
      ((dedupByText l seen).map ExtractedReq.text).Nodup ∧
      ∀ t ∈ (dedupByText l seen).map ExtractedReq.text, t ∉ seen := by
  intro l
  induction l with
  | nil => intro seen; exact ⟨List.nodup_nil, by simp [dedupByText]⟩
  | cons r rs ih =>
    intro seen
    rw [dedupByText]
    by_cases h : r.text ∈ seen
    · rw [if_pos h]
      exact ih seen
    · rw [if_neg h]
      obtain ⟨hnd, hnin⟩ := ih (r.text :: seen)
      refine ⟨List.nodup_cons.mpr ⟨?_, hnd⟩, ?_⟩
      · intro hmem
        exact hnin r.text hmem (List.mem_cons_self _ _)
      · intro t ht
        rcases List.mem_cons.mp ht with rfl | ht'
        · exact h
        · intro hts
          exact hnin t ht' (List.mem_cons_of_mem _ hts)

theorem finditer_capture_pos_le (w : List Char) :
    ∀ (fuel : ℕ) (cs : List Char) (pos : ℕ),
      ∀ q ∈ finditer_capture w fuel cs pos, pos ≤ q.2 := by
  intro fuel
  induction fuel with
  | zero => intro cs pos q hq; simp [finditer_capture] at hq
  | succ n ih =>
    intro cs pos q hq
    cases cs with
    | nil => simp [finditer_capture] at hq
    | cons c rest =>
      rw [finditer_capture] at hq
      rcases h : tryMatch w (c :: rest) with _ | capLen
      · rw [h] at hq
        exact le_of_lt (lt_of_lt_of_le (Nat.lt_succ_self pos) (ih rest (pos + 1) q hq))
      · rw [h] at hq
        rcases List.mem_cons.mp hq with rfl | hq'
        · exact le_refl pos
        · have := ih _ _ q hq'
          omega

theorem finditer_capture_sorted (w : List Char) :
    ∀ (fuel : ℕ) (cs : List Char) (pos : ℕ),
      List.Sorted (fun a b : ℕ => a < b)
        ((finditer_capture w fuel cs pos).map Prod.snd) := by
  intro fuel
  induction fuel with
  | zero => intro cs pos; simp [finditer_capture]
  | succ n ih =>
    intro cs pos
    cases cs with
    | nil => simp [finditer_capture]
    | cons c rest =>
      rw [finditer_capture]
      rcases h : tryMatch w (c :: rest) with _ | capLen
      · exact ih rest (pos + 1)
      · rw [List.map_cons, List.sorted_cons]
        refine ⟨?_, ih _ _⟩
        intro b hb
        rcases List.mem_map.mp hb with ⟨q, hq, rfl⟩
        have := finditer_capture_pos_le w n _ _ q hq
        have hmax : 1 ≤ max capLen.2 1 := le_max_right _ _
        omega

/-- Every pattern's matches are reported in strictly increasing position
order. -/
theorem scan_word_sorted (w : String) (text : String) :
    List.Sorted (fun a b : ℕ => a < b) ((scan_word w text).map Prod.snd) :=
  finditer_capture_sorted w.data _ text.data 0

/-- Counterexample to C5 as stated: the patterns are scanned one after the
other (`must` before `shall`), so for this text the `must`-match at position
24 precedes the `shall`-match at position 2 in the output — the result is not
ordered by position of occurrence in the text. -/
theorem c5_counterexample_not_document_order :
    (extract_requirements "a shall cccccccccccc. b must dddddddddddd.").map
        (fun r => (r.text, r.position)) =
      [("dddddddddddd", 24), ("cccccccccccc", 2)] ∧
    ¬ List.Sorted (fun a b : ℕ => a ≤ b)
        ((extract_requirements "a shall cccccccccccc. b must dddddddddddd.").map
          ExtractedReq.position) := by
  exact ⟨by decide, by decide⟩

/-- C5 (amended): `extract_requirements` returns at most 10 entries, with
pairwise-distinct texts, deduplicated by exact text match keeping the first
occurrence (its text sequence is the first-occurrence sequence of the raw
match list, truncated to 10); the output is a subsequence of the raw match
list, which is ordered pattern-by-pattern (`must`, `shall`, `required to`,
`mandatory`) with each pattern's matches in increasing position order — not
globally ordered by document position. -/
theorem c5_extract_requirements_cap_dedup_order (text : String) :
    (extract_requirements text).length ≤ 10 ∧
    ((extract_requirements text).map ExtractedReq.text).Nodup ∧
    (extract_requirements text).map ExtractedReq.text =
      (firstOccurrences ((raw_requirements text).map ExtractedReq.text)).take 10 ∧
    (extract_requirements text).Sublist (raw_requirements text) ∧
    ∀ w : String, List.Sorted (fun a b : ℕ => a < b)
      ((scan_word w text).map Prod.snd) := by
  have hmap : (dedupByText (raw_requirements text) []).map ExtractedReq.text =
      firstOccurrences ((raw_requirements text).map ExtractedReq.text) := by
    rw [dedupByText_map_text]
    congr 1
    apply List.filter_eq_self.mpr
    intro a _
    simp
  refine ⟨?_, ?_, ?_, ?_, fun w => scan_word_sorted w text⟩
  · exact List.length_take_le 10 _
  · rw [extract_requirements, List.map_take]
    exact List.Nodup.sublist (List.take_sublist 10 _)
      (dedupByText_nodup (raw_requirements text) []).1
  · rw [extract_requirements, List.map_take, hmap]
  · exact (List.take_sublist _ _).trans (dedupByText_sublist _ _)

/-- Counterexample to C9 as stated: the capture `bbbbbbbbbb` has trimmed
length exactly 10, yet it is discarded (the code keeps a span only when its
length is strictly greater than 10), so the extraction result is empty. -/
theorem c9_counterexample_ten_char_span_discarded :
    scan_word "must" "a must bbbbbbbbbb." = [("bbbbbbbbbb".data, 2)] ∧
    (strip "bbbbbbbbbb".data).length = 10 ∧
    spanFilter ("bbbbbbbbbb".data, 2) = none ∧
    extract_requirements "a must bbbbbbbbbb." = [] := by
  exact ⟨by decide, by decide, by decide, by decide⟩

/-- C9 (amended): a captured modal-verb span is discarded exactly when its
trimmed length is at most 10 characters (kept only when strictly longer than
10); consequently every requirement returned by `extract_requirements` has a
text longer than 10 characters, and a span whose trimmed length is exactly 10
is discarded. -/
theorem c9_span_length_threshold :
    (∀ (cap : List Char) (pos : ℕ),
      spanFilter (cap, pos) = none ↔ (strip cap).length ≤ 10) ∧
    (∀ (text : String) (r : ExtractedReq),
      r ∈ extract_requirements text → 10 < r.text.length) := by
  constructor
  · intro cap pos
    simp only [spanFilter]
    split_ifs with h
    · simp only [reduceCtorEq, false_iff]
      omega
    · simp only [true_iff]
      omega
  · intro text r hr
    have hraw : r ∈ raw_requirements text :=
      ((List.take_sublist _ _).trans (dedupByText_sublist _ _)).mem hr
    rcases List.mem_flatMap.mp hraw with ⟨p, _, hr2⟩
    rcases List.mem_filterMap.mp hr2 with ⟨m, _, hsf⟩
    by_cases h : 10 < (strip m.1).length
    · rw [spanFilter, if_pos h, Option.some.injEq] at hsf
      rw [← hsf]
      exact h
    · rw [spanFilter, if_neg h] at hsf
      cases hsf

/-- Witness for C9 (amended): a 12-character trimmed span is kept and indeed
has length greater than 10. -/
theorem c9_span_length_threshold_witness :
    ({ text := "bbbbbbbbbbbb", type := "mandatory", position := 2 } : ExtractedReq) ∈
      extract_requirements "a must bbbbbbbbbbbb." ∧
    10 < ({ text := "bbbbbbbbbbbb", type := "mandatory", position := 2 } : ExtractedReq).text.length :=
  ⟨by decide,
   c9_span_length_threshold.2 "a must bbbbbbbbbbbb."
     { text := "bbbbbbbbbbbb", type := "mandatory", position := 2 } (by decide)⟩
